import Mathlib

/-!
Verification of the HubSpot support-triage automation core against its
natural-language specification.

The embedding follows the TypeScript sources:
* `triageOutputSchema` (zod schema with `superRefine`) from the types module;
* the idempotency manager (`isTicketProcessed`, `markTicketProcessed`) built
  on a Prisma `processedTicket` table with a unique index on `ticket_id` and
  `processed_at` defaulting to the current timestamp;
* the triage orchestrator, inference providers and validation-and-repair
  engine are not present in the source tree (the services module is a stub),
  so they are modelled from the specification, as marked in doc comments.
-/

namespace Triage

/-- The `priority` enum of `triageOutputSchema`. -/
def priorityValues : List String := ["low", "medium", "high", "critical"]

/-- The `handling_mode` enum of `triageOutputSchema`. -/
def handlingModeValues : List String :=
  ["reply_only", "reply_and_internal_followup", "internal_followup_only",
   "request_more_info", "no_action"]

/-- The `recommended_internal_action` enum of `triageOutputSchema`. -/
def recommendedInternalActionValues : List String :=
  ["Create bug report", "Create feedback ticket", "Escalate to engineering",
   "Escalate to security", "None"]

/-- The `asana_ticket_type_if_needed` enum of `triageOutputSchema`. -/
def asanaTicketTypeValues : List String := ["Bug", "Feedback", "Escalation", "None"]

/-- A parsed triage output, the TypeScript type inferred from
`triageOutputSchema`.  `confidence` (`z.number()`) is modelled as a rational. -/
structure TriageOutput where
  priority : String
  handling_mode : String
  recommended_internal_action : String
  asana_ticket_type_if_needed : String
  customer_summary : String
  reply_needed : Bool
  reply_draft : Option String
  questions_for_customer : List String
  internal_notes : List String
  confidence : Rat
deriving Repr, DecidableEq

/-- Raw input to schema validation.  Each field is wrapped in `Option` to model
presence of the key in the incoming object; for `reply_draft` the outer
`Option` is key presence and the inner `Option` is the JSON `null` allowed by
`z.string().nullable()`. -/
structure RawTriage where
  priority : Option String
  handling_mode : Option String
  recommended_internal_action : Option String
  asana_ticket_type_if_needed : Option String
  customer_summary : Option String
  reply_needed : Option Bool
  reply_draft : Option (Option String)
  questions_for_customer : Option (List String)
  internal_notes : Option (List String)
  confidence : Option Rat
deriving Repr, DecidableEq

/-- A single zod issue; `validate` reports the first one. -/
inductive ValidationError where
  | missingField (name : String)
  | invalidEnum (name : String)
  | tooLong (name : String)
  | outOfRange (name : String)
  | custom (path : String) (message : String)
deriving Repr, DecidableEq

/-- `z.enum([...])` on a required key: missing key is a `Required` issue,
a string outside the closed set is an invalid-enum issue (case-sensitive). -/
def parseEnumField (name : String) (values : List String) :
    Option String → Except ValidationError String
  | none => .error (.missingField name)
  | some s => if s ∈ values then .ok s else .error (.invalidEnum name)

/-- The base object parse of `triageOutputSchema` (before `superRefine`):
every key checked in shape order; `questions_for_customer` and
`internal_notes` carry `.default([])`, so an absent key parses to `[]`. -/
def validateBase (r : RawTriage) : Except ValidationError TriageOutput :=
  match parseEnumField "priority" priorityValues r.priority with
  | .error e => .error e
  | .ok p =>
  match parseEnumField "handling_mode" handlingModeValues r.handling_mode with
  | .error e => .error e
  | .ok hm =>
  match parseEnumField "recommended_internal_action" recommendedInternalActionValues
      r.recommended_internal_action with
  | .error e => .error e
  | .ok ra =>
  match parseEnumField "asana_ticket_type_if_needed" asanaTicketTypeValues
      r.asana_ticket_type_if_needed with
  | .error e => .error e
  | .ok at_ =>
  match r.customer_summary with
  | none => .error (.missingField "customer_summary")
  | some cs =>
  if cs.length ≤ 300 then
    match r.reply_needed with
    | none => .error (.missingField "reply_needed")
    | some rn =>
    match r.reply_draft with
    | none => .error (.missingField "reply_draft")
    | some rd =>
    match r.confidence with
    | none => .error (.missingField "confidence")
    | some c =>
    if 0 ≤ c ∧ c ≤ 1 then
      .ok { priority := p, handling_mode := hm, recommended_internal_action := ra,
            asana_ticket_type_if_needed := at_, customer_summary := cs,
            reply_needed := rn, reply_draft := rd,
            questions_for_customer := r.questions_for_customer.getD [],
            internal_notes := r.internal_notes.getD [],
            confidence := c }
    else .error (.outOfRange "confidence")
  else .error (.tooLong "customer_summary")

/-- The `superRefine` block of `triageOutputSchema`: the list of custom issues
added for a data value that passed the base parse, in source order. -/
def refineIssues (d : TriageOutput) : List ValidationError :=
  (if d.reply_needed ∧ d.reply_draft = none then
     [.custom "reply_draft" "reply_draft must be provided when reply_needed is true"]
   else []) ++
  (if ¬ d.reply_needed ∧ d.reply_draft ≠ none then
     [.custom "reply_draft" "reply_draft must be null when reply_needed is false"]
   else []) ++
  (if d.handling_mode = "request_more_info" then
     (if d.questions_for_customer = [] then
        [.custom "questions_for_customer"
           "questions_for_customer must not be empty when handling_mode is request_more_info"]
      else []) ++
     (if ¬ d.reply_needed then
        [.custom "reply_needed"
           "reply_needed should be true when handling_mode is request_more_info"]
      else [])
   else [])

/-- `triageOutputSchema` validation: base object parse, then the `superRefine`
issues; the first violated rule is reported. -/
def validate (r : RawTriage) : Except ValidationError TriageOutput :=
  match validateBase r with
  | .error e => .error e
  | .ok d =>
    match refineIssues d with
    | [] => .ok d
    | e :: _ => .error e

/-- Modelled from the spec: the two `TriageResult` invariants the spec states
(§3/§8) — `reply_needed` holds iff `reply_draft` is present, and
`handling_mode = request_more_info` implies a non-empty
`questions_for_customer`.  Used only to compare the implemented schema with
the spec's stated invariants. -/
def specInvariants (d : TriageOutput) : Prop :=
  (d.reply_needed = true ↔ d.reply_draft ≠ none) ∧
  (d.handling_mode = "request_more_info" → d.questions_for_customer ≠ [])

instance (d : TriageOutput) : Decidable (specInvariants d) := by
  unfold specInvariants; infer_instance

/-! ## Idempotency store (the `idempotency` database module) -/

/-- A row of the `processed_tickets` table as the idempotency manager reads
and writes it (`provider`, `success`, `processed_at`); time is modelled as a
natural number. -/
structure ProcessedRecord where
  provider : String
  success : Bool
  processedAt : Nat
deriving Repr, DecidableEq

/-- The `processed_tickets` table keyed by its unique `ticket_id` index. -/
def Store := String → Option ProcessedRecord

/-- Availability of the storage backend for one call: `false` models the
backend throwing (database unreachable). -/
inductive StorageError where
  | unavailable
deriving Repr, DecidableEq

/-- `prisma.processedTicket.findUnique` on the unique `ticketId` key, which
either returns the row (or no row) or throws when storage is unavailable. -/
def dbFindUnique (avail : Bool) (store : Store) (ticketId : String) :
    Except StorageError (Option ProcessedRecord) :=
  if avail then .ok (store ticketId) else .error .unavailable

/-- Result shape of `isTicketProcessed` (`IdempotencyCheckResult`). -/
structure IdempotencyCheckResult where
  isProcessed : Bool
  provider : Option String
  processedAt : Option Nat
deriving Repr, DecidableEq

/-- `isTicketProcessed`: point lookup by `ticketId`; a missing row reports
unprocessed, and a storage error is caught and also reports unprocessed
(fail-open), never propagating. -/
def isTicketProcessed (avail : Bool) (store : Store) (ticketId : String) :
    IdempotencyCheckResult :=
  match dbFindUnique avail store ticketId with
  | .error _ => { isProcessed := false, provider := none, processedAt := none }
  | .ok none => { isProcessed := false, provider := none, processedAt := none }
  | .ok (some r) =>
      { isProcessed := true, provider := some r.provider,
        processedAt := some r.processedAt }

/-- `prisma.processedTicket.upsert` keyed on `ticketId`: the `create` branch
inserts `{ticketId, provider, success}` with `processed_at` taking the
schema's `now()` default, the `update` branch overwrites `provider`,
`success` and `processedAt` with the current time; throws if storage is
unavailable.  Rows of other ticket ids are untouched. -/
def dbUpsert (avail : Bool) (store : Store) (ticketId provider : String)
    (success : Bool) (now : Nat) : Except StorageError Store :=
  if avail then
    .ok (fun u =>
      if u = ticketId then
        match store ticketId with
        | none => some { provider := provider, success := success, processedAt := now }
        | some _ => some { provider := provider, success := success, processedAt := now }
      else store u)
  else .error .unavailable

/-- `markTicketProcessed`: upsert of the idempotency record; a storage error
is logged and swallowed (the function returns normally with the table as it
was). -/
def markTicketProcessed (avail : Bool) (store : Store) (ticketId provider : String)
    (success : Bool) (now : Nat) : Store :=
  match dbUpsert avail store ticketId provider success now with
  | .ok st => st
  | .error _ => store

/-! ## Triage orchestrator

The services module of the source tree is a stub, so the orchestrator, the
two inference providers and the validation-and-repair engine are modelled
from the specification (§4.2, §4.3, §4.5). -/

/-- Modelled from the spec: the normalized ticket fed to the pipeline
(identifier, subject, untrusted body). -/
structure Ticket where
  ticket_id : String
  subject : String
  body : String
deriving Repr, DecidableEq

/-- Modelled from the spec: the tagged `ProviderError` union of a provider
`generate` call (§4.2). -/
inductive ProviderError where
  | timeout
  | connectionFailure
  | httpError (status : Nat)
  | authFailure
deriving Repr, DecidableEq

/-- Modelled from the spec: the behavior of one provider, as the response to
its n-th `generate` call for a ticket — call 0 is the initial triage prompt,
call 1 the corrective repair prompt.  A successful call yields raw text,
modelled as `some` parsed structured literal or `none` when no structured
literal can be extracted from the text. -/
def ProviderGen := Ticket → Nat → Except ProviderError (Option RawTriage)

/-- Modelled from the spec: which prompt a `generate` call carried — the
initial triage request or the one corrective repair round. -/
inductive CallKind where
  | initial
  | repair
deriving Repr, DecidableEq

/-- Modelled from the spec: one `generate` invocation recorded against a
provider, with the ticket context it carried. -/
structure CallRecord where
  ticket : Ticket
  kind : CallKind
deriving Repr, DecidableEq

/-- Output-contract validation of one raw provider response: text with no
extractable structured literal fails the parse step, otherwise the
`triageOutputSchema` validation runs.  The schema part is the source's
`validate`; the parse step is modelled from the spec (§4.1). -/
def validateRaw (text : Option RawTriage) : Except ValidationError TriageOutput :=
  match text with
  | none => .error (.custom "root" "no structured literal found in provider output")
  | some r => validate r

/-- Modelled from the spec: the validation-and-repair engine (§4.3) —
validate the raw text; if invalid, issue exactly one repair call to the same
provider and validate once more; a second failure (or a provider error on
the repair call) is terminal.  Also returns the repair calls issued. -/
def validateAndRepair (gen : ProviderGen) (tk : Ticket) (text : Option RawTriage) :
    Except String TriageOutput × List CallRecord :=
  match validateRaw text with
  | .ok d => (.ok d, [])
  | .error _ =>
    match gen tk 1 with
    | .error _ => (.error "RepairFailed", [{ ticket := tk, kind := .repair }])
    | .ok text2 =>
      match validateRaw text2 with
      | .ok d => (.ok d, [{ ticket := tk, kind := .repair }])
      | .error _ => (.error "RepairFailed", [{ ticket := tk, kind := .repair }])

/-- Modelled from the spec: terminal states of the orchestrator (§4.5). -/
inductive Outcome where
  | Committed
  | Failed
  | Skipped
deriving Repr, DecidableEq

/-- Modelled from the spec: one call to the external Notifier — either a
triage recommendation or the "triage failed" payload. -/
inductive NotifyPayload where
  | triage (ticketId : String) (result : TriageOutput) (provider : String)
  | failure (ticketId : String) (reason : String)
deriving Repr, DecidableEq

/-- Modelled from the spec: the collaborators of one pipeline run — the two
provider behaviors, the storage availability for the duplicate-check read
and for the idempotency write, and the commit timestamp. -/
structure PipelineEnv where
  primaryGen : ProviderGen
  fallbackGen : ProviderGen
  lookupAvail : Bool
  writeAvail : Bool
  now : Nat

/-- Modelled from the spec: the observable effects of one pipeline run — the
terminal state, the store afterwards, every `generate` call per provider and
every Notifier call. -/
structure PipelineResult where
  outcome : Outcome
  store : Store
  primaryLog : List CallRecord
  fallbackLog : List CallRecord
  notices : List NotifyPayload

/-- Modelled from the spec: the orchestrator state machine (§4.5).
Duplicate check first (`Skipped` on a hit, record not rewritten); otherwise
primary-first inference with exactly one fallback invocation on any primary
`ProviderError`; validation with one repair round against the provider that
produced the text; the Notifier is called with the recommendation (then the
record commits with `success := true` and the provider used) or with the
"triage failed" payload (record commits with `success := false`). -/
def runPipeline (env : PipelineEnv) (store : Store) (tk : Ticket) : PipelineResult :=
  if (isTicketProcessed env.lookupAvail store tk.ticket_id).isProcessed then
    { outcome := .Skipped, store := store, primaryLog := [], fallbackLog := [],
      notices := [] }
  else
    match env.primaryGen tk 0 with
    | .ok text =>
      match validateAndRepair env.primaryGen tk text with
      | (.ok d, extra) =>
        { outcome := .Committed,
          store := markTicketProcessed env.writeAvail store tk.ticket_id "local"
            true env.now,
          primaryLog := { ticket := tk, kind := .initial } :: extra,
          fallbackLog := [],
          notices := [.triage tk.ticket_id d "local"] }
      | (.error reason, extra) =>
        { outcome := .Failed,
          store := markTicketProcessed env.writeAvail store tk.ticket_id "local"
            false env.now,
          primaryLog := { ticket := tk, kind := .initial } :: extra,
          fallbackLog := [],
          notices := [.failure tk.ticket_id reason] }
    | .error _ =>
      match env.fallbackGen tk 0 with
      | .error _ =>
        { outcome := .Failed,
          store := markTicketProcessed env.writeAvail store tk.ticket_id "fallback"
            false env.now,
          primaryLog := [{ ticket := tk, kind := .initial }],
          fallbackLog := [{ ticket := tk, kind := .initial }],
          notices := [.failure tk.ticket_id "both providers failed"] }
      | .ok text =>
        match validateAndRepair env.fallbackGen tk text with
        | (.ok d, extra) =>
          { outcome := .Committed,
            store := markTicketProcessed env.writeAvail store tk.ticket_id "fallback"
              true env.now,
            primaryLog := [{ ticket := tk, kind := .initial }],
            fallbackLog := { ticket := tk, kind := .initial } :: extra,
            notices := [.triage tk.ticket_id d "fallback"] }
        | (.error reason, extra) =>
          { outcome := .Failed,
            store := markTicketProcessed env.writeAvail store tk.ticket_id "fallback"
              false env.now,
            primaryLog := [{ ticket := tk, kind := .initial }],
            fallbackLog := { ticket := tk, kind := .initial } :: extra,
            notices := [.failure tk.ticket_id reason] }

/-- The inference-stage (non-repair) `generate` calls of a provider log. -/
def initialCalls (l : List CallRecord) : List CallRecord :=
  l.filter (fun c => c.kind == CallKind.initial)

/-- Whether `triageOutputSchema` validation accepts a raw object. -/
def acceptedBy (r : RawTriage) : Bool :=
  match validate r with
  | .ok _ => true
  | .error _ => false

instance {ε α : Type} [DecidableEq ε] [DecidableEq α] : DecidableEq (Except ε α) :=
  fun a b =>
    match a, b with
    | .ok x, .ok y =>
        if h : x = y then .isTrue (h ▸ rfl)
        else .isFalse (fun hc => h (by injection hc))
    | .ok _, .error _ => .isFalse (fun hc => Except.noConfusion hc)
    | .error _, .ok _ => .isFalse (fun hc => Except.noConfusion hc)
    | .error e, .error f =>
        if h : e = f then .isTrue (h ▸ rfl)
        else .isFalse (fun hc => h (by injection hc))

/-! ## Concrete inputs used by witnesses and counterexamples -/

/-- A raw object every field of which is present and valid (the base of the
concrete test inputs below). -/
def rawOk : RawTriage :=
  { priority := some "low", handling_mode := some "no_action",
    recommended_internal_action := some "None",
    asana_ticket_type_if_needed := some "None",
    customer_summary := some "summary",
    reply_needed := some false, reply_draft := some none,
    questions_for_customer := some [], internal_notes := some [],
    confidence := some 1 }

/-- The parse of `rawOk`. -/
def dOk : TriageOutput :=
  { priority := "low", handling_mode := "no_action",
    recommended_internal_action := "None", asana_ticket_type_if_needed := "None",
    customer_summary := "summary", reply_needed := false, reply_draft := none,
    questions_for_customer := [], internal_notes := [], confidence := 1 }

/-- `rawOk` with the `recommended_internal_action` field replaced. -/
def withAction (v : String) : RawTriage :=
  { rawOk with recommended_internal_action := some v }

/-- `rawOk` with `reply_needed = true` while `reply_draft` stays `null`. -/
def rawBadDraft : RawTriage := { rawOk with reply_needed := some true }

/-- `rawOk` with `handling_mode = request_more_info` and an empty question
list. -/
def rawRMINoQuestions : RawTriage :=
  { rawOk with handling_mode := some "request_more_info" }

/-- `rawOk` with the two defaulted list fields absent. -/
def rawNoLists : RawTriage :=
  { rawOk with
    questions_for_customer := none, internal_notes := none }

/-- `request_more_info` with a non-empty question list, `reply_needed =
false` and `reply_draft = null`: this satisfies both invariants the spec
states. -/
def rawRMI : RawTriage :=
  { rawOk with
    handling_mode := some "request_more_info",
    questions_for_customer := some ["Which version?"] }

/-- The triage output `rawRMI` describes. -/
def dRMI : TriageOutput :=
  { dOk with
    handling_mode := "request_more_info",
    questions_for_customer := ["Which version?"] }

/-- `rawRMI` additionally carrying `reply_needed = true` and a draft, which
the implemented schema accepts. -/
def rawRMIOk : RawTriage :=
  { rawRMI with
    reply_needed := some true,
    reply_draft := some (some "Could you share the version?") }

/-- The parse of `rawRMIOk`. -/
def dRMIOk : TriageOutput :=
  { dRMI with
    reply_needed := true,
    reply_draft := some "Could you share the version?" }

/-- The empty `processed_tickets` table. -/
def store0 : Store := fun _ => none

/-- A concrete ticket. -/
def tk0 : Ticket := { ticket_id := "T1", subject := "subj", body := "body" }

/-- A pipeline environment with healthy storage and a primary provider that
returns a valid structured result. -/
def envA : PipelineEnv :=
  { primaryGen := fun _ _ => .ok (some rawOk),
    fallbackGen := fun _ _ => .ok (some rawOk),
    lookupAvail := true, writeAvail := true, now := 5 }

/-- `envA` with the storage backend raising on the duplicate-check lookup. -/
def envDown : PipelineEnv :=
  { primaryGen := fun _ _ => .ok (some rawOk),
    fallbackGen := fun _ _ => .ok (some rawOk),
    lookupAvail := false, writeAvail := true, now := 5 }

/-- `envA` with a primary provider that times out. -/
def envPrimaryDown : PipelineEnv :=
  { primaryGen := fun _ _ => .error .timeout,
    fallbackGen := fun _ _ => .ok (some rawOk),
    lookupAvail := true, writeAvail := true, now := 5 }

/-! ## Inversion lemmas for the validation layer -/

/-- A required enum field parses to `s` exactly when the key holds `s` and
`s` is in the closed set. -/
theorem parseEnumField_ok_iff (name : String) (vs : List String) (o : Option String)
    (s : String) : parseEnumField name vs o = .ok s ↔ o = some s ∧ s ∈ vs := by
  cases o with
  | none => simp [parseEnumField]
  | some v =>
    by_cases hv : v ∈ vs
    · simp only [parseEnumField, if_pos hv, Except.ok.injEq, Option.some.injEq]
      constructor
      · rintro rfl; exact ⟨rfl, hv⟩
      · rintro ⟨rfl, _⟩; rfl
    · simp only [parseEnumField, if_neg hv, Option.some.injEq]
      constructor
      · intro h; exact Except.noConfusion h
      · rintro ⟨rfl, hs⟩; exact absurd hs hv

/-- Inversion of the base object parse: a successful parse pins every raw
field to the parsed value, enforces the enum memberships and range checks,
and applies the `.default([])` of the two list fields. -/
theorem validateBase_ok (r : RawTriage) (d : TriageOutput)
    (h : validateBase r = .ok d) :
    r.priority = some d.priority ∧ d.priority ∈ priorityValues ∧
    r.handling_mode = some d.handling_mode ∧ d.handling_mode ∈ handlingModeValues ∧
    r.recommended_internal_action = some d.recommended_internal_action ∧
      d.recommended_internal_action ∈ recommendedInternalActionValues ∧
    r.asana_ticket_type_if_needed = some d.asana_ticket_type_if_needed ∧
      d.asana_ticket_type_if_needed ∈ asanaTicketTypeValues ∧
    r.customer_summary = some d.customer_summary ∧ d.customer_summary.length ≤ 300 ∧
    r.reply_needed = some d.reply_needed ∧
    r.reply_draft = some d.reply_draft ∧
    r.confidence = some d.confidence ∧ 0 ≤ d.confidence ∧ d.confidence ≤ 1 ∧
    d.questions_for_customer = r.questions_for_customer.getD [] ∧
    d.internal_notes = r.internal_notes.getD [] := by
  unfold validateBase at h
  repeat' split at h
  all_goals simp_all [parseEnumField_ok_iff]
  subst h
  simp_all

/-- Inversion of full validation: success means the base parse succeeded and
the `superRefine` block added no issue. -/
theorem validate_ok (r : RawTriage) (d : TriageOutput) (h : validate r = .ok d) :
    validateBase r = .ok d ∧ refineIssues d = [] := by
  unfold validate at h
  split at h
  · exact Except.noConfusion h
  · rename_i d' hbase
    split at h
    · rename_i hnil
      injection h with h
      subst h
      exact ⟨hbase, hnil⟩
    · exact Except.noConfusion h

/-- The `superRefine` block adds no issue exactly when the
`reply_needed`/`reply_draft` biconditional holds and `request_more_info`
comes with non-empty questions and `reply_needed = true`. -/
theorem refineIssues_nil_iff (d : TriageOutput) : refineIssues d = [] ↔
    ((d.reply_needed = true ↔ d.reply_draft ≠ none) ∧
     (d.handling_mode = "request_more_info" →
        d.questions_for_customer ≠ [] ∧ d.reply_needed = true)) := by
  unfold refineIssues
  by_cases hm : d.handling_mode = "request_more_info" <;>
    by_cases hq : d.questions_for_customer = [] <;>
      cases hb : d.reply_needed <;> cases hd : d.reply_draft <;>
        simp_all

/-! ## Lemmas about the idempotency store and the pipeline -/

/-- After a successful upsert the ticket's row holds exactly the given
provider, success flag and timestamp, whether a row existed or not. -/
theorem markTicketProcessed_self (store : Store) (t p : String) (s : Bool) (now : Nat) :
    markTicketProcessed true store t p s now t =
      some { provider := p, success := s, processedAt := now } := by
  unfold markTicketProcessed dbUpsert
  cases hs : store t <;> simp [hs]

/-- A successful upsert touches no row of another ticket id. -/
theorem markTicketProcessed_other (store : Store) (t p : String) (s : Bool) (now : Nat)
    (u : String) (hu : u ≠ t) : markTicketProcessed true store t p s now u = store u := by
  unfold markTicketProcessed dbUpsert
  simp [hu]

/-- A processed verdict can only come from an available backend returning a
row. -/
theorem isProcessed_true (a : Bool) (s : Store) (t : String)
    (h : (isTicketProcessed a s t).isProcessed = true) : ∃ rec, s t = some rec := by
  cases a with
  | false => simp [isTicketProcessed, dbFindUnique] at h
  | true =>
    cases hs : s t with
    | none => simp [isTicketProcessed, dbFindUnique, hs] at h
    | some rec => exact ⟨rec, rfl⟩

/-- A duplicate-check hit short-circuits the pipeline: `Skipped`, store
untouched, no provider call, no Notifier call. -/
theorem runPipeline_skip (env : PipelineEnv) (store : Store) (tk : Ticket)
    (h : (isTicketProcessed env.lookupAvail store tk.ticket_id).isProcessed = true) :
    runPipeline env store tk =
      { outcome := .Skipped, store := store, primaryLog := [], fallbackLog := [],
        notices := [] } := by
  unfold runPipeline
  simp [h]

/-- When the idempotency write is available, every pipeline run leaves a row
for the ticket behind (either the pre-existing one on a duplicate hit, or
the committed record). -/
theorem runPipeline_store_some (env : PipelineEnv) (store : Store) (tk : Ticket)
    (h1 : env.writeAvail = true) :
    ∃ rec, (runPipeline env store tk).store tk.ticket_id = some rec := by
  unfold runPipeline
  split
  · rename_i hcond
    exact isProcessed_true _ _ _ hcond
  · repeat' split
    all_goals
      simp only [h1]
      exact ⟨_, markTicketProcessed_self store tk.ticket_id _ _ env.now⟩

/-- The extra calls issued by the validation-and-repair engine are all repair
calls: they contribute nothing to the inference-stage call count. -/
theorem validateAndRepair_snd (gen : ProviderGen) (tk : Ticket)
    (text : Option RawTriage) (res : Except String TriageOutput)
    (extra : List CallRecord) (h : validateAndRepair gen tk text = (res, extra)) :
    initialCalls extra = [] := by
  unfold validateAndRepair at h
  repeat' split at h
  all_goals
    injection h with h1 h2
    subst h2
    rfl

/-! ## Claim theorems: output contract -/

/-- C3: every `TriageResult` accepted by `triageOutputSchema` validation
satisfies `reply_needed = true` iff `reply_draft` is present, and validation
rejects a violation of the biconditional in either direction. -/
theorem reply_draft_biconditional :
    (∀ (r : RawTriage) (d : TriageOutput), validate r = .ok d →
       (d.reply_needed = true ↔ d.reply_draft ≠ none)) ∧
    (∀ r : RawTriage, r.reply_needed = some true → r.reply_draft = some none →
       ∀ d : TriageOutput, validate r ≠ .ok d) ∧
    (∀ (r : RawTriage) (s : String), r.reply_needed = some false →
       r.reply_draft = some (some s) → ∀ d : TriageOutput, validate r ≠ .ok d) := by
  refine ⟨?_, ?_, ?_⟩
  · intro r d h
    obtain ⟨-, hnil⟩ := validate_ok r d h
    exact ((refineIssues_nil_iff d).1 hnil).1
  · intro r hrn hrd d h
    obtain ⟨hbase, hnil⟩ := validate_ok r d h
    obtain ⟨-, -, -, -, -, -, -, -, -, -, h11, h12, -⟩ := validateBase_ok r d hbase
    have hb : d.reply_needed = true := by
      have h0 := hrn.symm.trans h11
      injection h0 with h0
      exact h0.symm
    have hd : d.reply_draft = none := by
      have h0 := hrd.symm.trans h12
      injection h0 with h0
      exact h0.symm
    exact ((refineIssues_nil_iff d).1 hnil).1.1 hb hd
  · intro r s hrn hrd d h
    obtain ⟨hbase, hnil⟩ := validate_ok r d h
    obtain ⟨-, -, -, -, -, -, -, -, -, -, h11, h12, -⟩ := validateBase_ok r d hbase
    have hb : d.reply_needed = false := by
      have h0 := hrn.symm.trans h11
      injection h0 with h0
      exact h0.symm
    have hd : d.reply_draft = some s := by
      have h0 := hrd.symm.trans h12
      injection h0 with h0
      exact h0.symm
    have hdrawn := ((refineIssues_nil_iff d).1 hnil).1.2 (by rw [hd]; simp)
    rw [hb] at hdrawn
    exact Bool.noConfusion hdrawn

/-- C3 witness: the rejection branch applied to `reply_needed = true` with a
`null` draft. -/
theorem reply_draft_biconditional_witness : validate rawBadDraft ≠ .ok dOk :=
  reply_draft_biconditional.2.1 rawBadDraft rfl rfl dOk

/-- C4: accepted outputs with `handling_mode = request_more_info` carry a
non-empty `questions_for_customer`, and validation rejects
`request_more_info` combined with an empty question list. -/
theorem request_more_info_questions :
    (∀ (r : RawTriage) (d : TriageOutput), validate r = .ok d →
       d.handling_mode = "request_more_info" → d.questions_for_customer ≠ []) ∧
    (∀ r : RawTriage, r.handling_mode = some "request_more_info" →
       r.questions_for_customer = some [] →
       ∀ d : TriageOutput, validate r ≠ .ok d) := by
  constructor
  · intro r d h hm
    obtain ⟨-, hnil⟩ := validate_ok r d h
    exact (((refineIssues_nil_iff d).1 hnil).2 hm).1
  · intro r hm hq d h
    obtain ⟨hbase, hnil⟩ := validate_ok r d h
    obtain ⟨-, -, h3, -, -, -, -, -, -, -, -, -, -, -, -, h16, -⟩ :=
      validateBase_ok r d hbase
    have hdm : d.handling_mode = "request_more_info" := by
      have h0 := hm.symm.trans h3
      injection h0 with h0
      exact h0.symm
    have hdq : d.questions_for_customer = [] := by
      rw [h16, hq]
      rfl
    exact (((refineIssues_nil_iff d).1 hnil).2 hdm).1 hdq

/-- C4 witness: the rejection branch applied to `request_more_info` with an
empty question list. -/
theorem request_more_info_questions_witness :
    validate rawRMINoQuestions ≠ .ok dOk :=
  request_more_info_questions.2 rawRMINoQuestions rfl rfl dOk

/-- C10: beyond the spec's invariants, the implemented schema also forces
`reply_needed = true` under `request_more_info`; the concrete output
`rawRMI`, which satisfies both spec invariants with `reply_needed = false`,
is rejected with the schema's extra custom issue. -/
theorem request_more_info_requires_reply :
    (∀ (r : RawTriage) (d : TriageOutput), validate r = .ok d →
       d.handling_mode = "request_more_info" → d.reply_needed = true) ∧
    specInvariants dRMI ∧
    validateBase rawRMI = .ok dRMI ∧
    validate rawRMI = .error (.custom "reply_needed"
      "reply_needed should be true when handling_mode is request_more_info") := by
  refine ⟨?_, by decide, by decide, by decide⟩
  intro r d h hm
  obtain ⟨-, hnil⟩ := validate_ok r d h
  exact (((refineIssues_nil_iff d).1 hnil).2 hm).2

/-- C10 witness: the universal conjunct applied to the accepted
`request_more_info` output `rawRMIOk`. -/
theorem request_more_info_requires_reply_witness : dRMIOk.reply_needed = true :=
  request_more_info_requires_reply.1 rawRMIOk dRMIOk (by decide) (by decide)

/-- C6 counterexample: validation accepts `"None"` — not one of the claimed
snake_case identifiers — and rejects the claimed identifier
`"create_bug_report"` in an otherwise valid output. -/
theorem recommended_action_counterexample :
    acceptedBy (withAction "None") = true ∧
    "None" ∉ ["create_bug_report", "create_feedback_ticket",
              "escalate_engineering", "escalate_security", "none"] ∧
    acceptedBy (withAction "create_bug_report") = false := by
  decide

/-- C6 amended: validation accepts a `recommended_internal_action` value iff
it is, case-sensitively, one of the five strings of the implemented enum
(`Create bug report`, `Create feedback ticket`, `Escalate to engineering`,
`Escalate to security`, `None`). -/
theorem recommended_action_enum :
    (∀ (r : RawTriage) (d : TriageOutput), validate r = .ok d →
       d.recommended_internal_action ∈ recommendedInternalActionValues) ∧
    (∀ (r : RawTriage) (v : String), r.recommended_internal_action = some v →
       v ∉ recommendedInternalActionValues →
       ∀ d : TriageOutput, validate r ≠ .ok d) ∧
    (∀ v ∈ recommendedInternalActionValues, acceptedBy (withAction v) = true) := by
  refine ⟨?_, ?_, by decide⟩
  · intro r d h
    obtain ⟨hbase, -⟩ := validate_ok r d h
    obtain ⟨-, -, -, -, -, h6, -⟩ := validateBase_ok r d hbase
    exact h6
  · intro r v hv hmem d h
    obtain ⟨hbase, -⟩ := validate_ok r d h
    obtain ⟨-, -, -, -, h5, h6, -⟩ := validateBase_ok r d hbase
    have hveq : v = d.recommended_internal_action :=
      Option.some.inj (hv.symm.trans h5)
    exact hmem (by rw [hveq]; exact h6)

/-- C6 witness: the rejection branch applied to the out-of-enum value
`"urgent"`. -/
theorem recommended_action_enum_witness :
    validate (withAction "urgent") ≠ .ok dOk :=
  recommended_action_enum.2.1 (withAction "urgent") "urgent" rfl (by decide) dOk

/-- C7 counterexample: an input missing `questions_for_customer` and
`internal_notes` is accepted (the two fields carry `.default([])`), so
validation does not require every schema field to be present. -/
theorem required_fields_counterexample :
    rawNoLists.questions_for_customer = none ∧
    rawNoLists.internal_notes = none ∧
    acceptedBy rawNoLists = true := by
  decide

/-- C7 amended: validation requires presence of every schema field except
`questions_for_customer` and `internal_notes`, which default to `[]` when
absent. -/
theorem required_fields :
    (∀ (r : RawTriage) (d : TriageOutput), validate r = .ok d →
       r.priority ≠ none ∧ r.handling_mode ≠ none ∧
       r.recommended_internal_action ≠ none ∧
       r.asana_ticket_type_if_needed ≠ none ∧ r.customer_summary ≠ none ∧
       r.reply_needed ≠ none ∧ r.reply_draft ≠ none ∧ r.confidence ≠ none) ∧
    (∀ (r : RawTriage) (d : TriageOutput), validate r = .ok d →
       (r.questions_for_customer = none → d.questions_for_customer = []) ∧
       (r.internal_notes = none → d.internal_notes = [])) := by
  constructor
  · intro r d h
    obtain ⟨hbase, -⟩ := validate_ok r d h
    obtain ⟨h1, -, h3, -, h5, -, h7, -, h9, -, h11, h12, h13, -⟩ :=
      validateBase_ok r d hbase
    exact ⟨by simp [h1], by simp [h3], by simp [h5], by simp [h7], by simp [h9],
           by simp [h11], by simp [h12], by simp [h13]⟩
  · intro r d h
    obtain ⟨hbase, -⟩ := validate_ok r d h
    obtain ⟨-, -, -, -, -, -, -, -, -, -, -, -, -, -, -, h16, h17⟩ :=
      validateBase_ok r d hbase
    constructor
    · intro hq
      rw [h16, hq]
      rfl
    · intro hn
      rw [h17, hn]
      rfl

/-- C7 witness: presence of the eight required fields of the accepted input
`rawOk`. -/
theorem required_fields_witness :
    rawOk.priority ≠ none ∧ rawOk.handling_mode ≠ none ∧
    rawOk.recommended_internal_action ≠ none ∧
    rawOk.asana_ticket_type_if_needed ≠ none ∧ rawOk.customer_summary ≠ none ∧
    rawOk.reply_needed ≠ none ∧ rawOk.reply_draft ≠ none ∧
    rawOk.confidence ≠ none :=
  required_fields.1 rawOk dOk (by decide)

/-! ## Claim theorems: idempotency store -/

/-- C8: a successful `markTicketProcessed` leaves the ticket's unique row
holding exactly the given provider, success flag and fresh timestamp —
whether a row existed before (overwrite) or not (insert) — and leaves the
row of every other ticket id unchanged. -/
theorem mark_processed_upsert (store : Store) (t p : String) (s : Bool) (now : Nat) :
    markTicketProcessed true store t p s now t =
      some { provider := p, success := s, processedAt := now } ∧
    ∀ u : String, u ≠ t → markTicketProcessed true store t p s now u = store u :=
  ⟨markTicketProcessed_self store t p s now,
   fun u hu => markTicketProcessed_other store t p s now u hu⟩

/-- C8 witness: the upsert theorem on the empty table at ticket `T1`,
frame condition read at `T2`. -/
theorem mark_processed_upsert_witness :
    markTicketProcessed true store0 "T1" "local" true 5 "T1" =
      some { provider := "local", success := true, processedAt := 5 } ∧
    markTicketProcessed true store0 "T1" "local" true 5 "T2" = store0 "T2" :=
  ⟨(mark_processed_upsert store0 "T1" "local" true 5).1,
   (mark_processed_upsert store0 "T1" "local" true 5).2 "T2" (by decide)⟩

/-- C9: when the storage backend raises on the write, `markTicketProcessed`
swallows the error and returns normally with the table unchanged; by type it
never propagates an error to the caller. -/
theorem mark_processed_never_raises (store : Store) (t p : String) (s : Bool)
    (now : Nat) : markTicketProcessed false store t p s now = store := rfl

/-! ## Claim theorems: orchestrator pipeline -/

/-- C5: on storage unavailability `isTicketProcessed` returns an unprocessed
verdict instead of an error, and the pipeline then proceeds to inference
(the primary provider is called, the run is not skipped). -/
theorem has_processed_fail_open :
    (∀ (store : Store) (t : String),
       isTicketProcessed false store t =
         { isProcessed := false, provider := none, processedAt := none }) ∧
    (∀ (env : PipelineEnv) (store : Store) (tk : Ticket), env.lookupAvail = false →
       (runPipeline env store tk).outcome ≠ Outcome.Skipped ∧
       { ticket := tk, kind := CallKind.initial } ∈
         (runPipeline env store tk).primaryLog) := by
  constructor
  · intro store t
    rfl
  · intro env store tk h
    unfold runPipeline
    simp only [h, isTicketProcessed, dbFindUnique, Bool.false_eq_true, if_false]
    repeat' split
    all_goals simp

/-- C5 witness: the fail-open theorem on a concrete environment whose
duplicate-check lookup raises. -/
theorem has_processed_fail_open_witness :
    (runPipeline envDown store0 tk0).outcome ≠ Outcome.Skipped ∧
    { ticket := tk0, kind := CallKind.initial } ∈
      (runPipeline envDown store0 tk0).primaryLog :=
  has_processed_fail_open.2 envDown store0 tk0 rfl

/-- C1: with the idempotency write available in the first run and the lookup
available in the second, a second sequential run for the same ticket id ends
in `Skipped` with no provider call and no Notifier call. -/
theorem second_run_skipped (env1 env2 : PipelineEnv) (store : Store) (tk : Ticket)
    (h1 : env1.writeAvail = true) (h2 : env2.lookupAvail = true) :
    (runPipeline env2 (runPipeline env1 store tk).store tk).outcome =
      Outcome.Skipped ∧
    (runPipeline env2 (runPipeline env1 store tk).store tk).primaryLog = [] ∧
    (runPipeline env2 (runPipeline env1 store tk).store tk).fallbackLog = [] ∧
    (runPipeline env2 (runPipeline env1 store tk).store tk).notices = [] := by
  obtain ⟨rec, hrec⟩ := runPipeline_store_some env1 store tk h1
  have hskip : (isTicketProcessed env2.lookupAvail
      ((runPipeline env1 store tk).store) tk.ticket_id).isProcessed = true := by
    rw [h2]
    simp [isTicketProcessed, dbFindUnique, hrec]
  rw [runPipeline_skip env2 _ tk hskip]
  exact ⟨rfl, rfl, rfl, rfl⟩

/-- C1 witness: two sequential runs of the healthy environment on the empty
table. -/
theorem second_run_skipped_witness :
    (runPipeline envA (runPipeline envA store0 tk0).store tk0).outcome =
      Outcome.Skipped ∧
    (runPipeline envA (runPipeline envA store0 tk0).store tk0).primaryLog = [] ∧
    (runPipeline envA (runPipeline envA store0 tk0).store tk0).fallbackLog = [] ∧
    (runPipeline envA (runPipeline envA store0 tk0).store tk0).notices = [] :=
  second_run_skipped envA envA store0 tk0 rfl rfl

/-- C2: for a ticket that is not a detected duplicate, a primary
`ProviderError` leads to exactly one inference-stage fallback invocation
carrying the same ticket, and a primary success leaves the fallback provider
uninvoked entirely. -/
theorem fallback_correctness (env : PipelineEnv) (store : Store) (tk : Ticket)
    (hnew : (isTicketProcessed env.lookupAvail store tk.ticket_id).isProcessed
      = false) :
    (∀ e : ProviderError, env.primaryGen tk 0 = .error e →
       initialCalls (runPipeline env store tk).fallbackLog =
         [{ ticket := tk, kind := CallKind.initial }]) ∧
    (∀ text : Option RawTriage, env.primaryGen tk 0 = .ok text →
       (runPipeline env store tk).fallbackLog = []) := by
  constructor
  · intro e he
    cases hf : env.fallbackGen tk 0 with
    | error e2 =>
      unfold runPipeline
      simp only [hnew, Bool.false_eq_true, if_false, he, hf]
      rfl
    | ok text2 =>
      rcases hv : validateAndRepair env.fallbackGen tk text2 with ⟨res, extra⟩
      have hextra := validateAndRepair_snd env.fallbackGen tk text2 res extra hv
      unfold runPipeline
      simp only [hnew, Bool.false_eq_true, if_false, he, hf, hv]
      simp only [initialCalls] at hextra ⊢
      cases res with
      | ok d => simp [List.filter_cons, hextra]
      | error reason => simp [List.filter_cons, hextra]
  · intro text ht
    unfold runPipeline
    simp only [hnew, Bool.false_eq_true, if_false, ht]
    split <;> rfl

/-- C2 witness: the fallback-invocation theorem on a concrete environment
whose primary provider times out. -/
theorem fallback_correctness_witness :
    initialCalls (runPipeline envPrimaryDown store0 tk0).fallbackLog =
      [{ ticket := tk0, kind := CallKind.initial }] :=
  (fallback_correctness envPrimaryDown store0 tk0 (by decide)).1
    ProviderError.timeout rfl

end Triage
